import Mathlib

/-!
# Verification of the random-projection clustering orchestration

Shallow embedding of `spikeinterface/sortingcomponents/clustering/random_projections.py`
(`RandomProjectionClustering.main_function`) and of
`spikeinterface/toolkit/preprocessing/basepreprocessor.py`.

Modelling conventions:
* machine floats are idealised as exact arithmetic: `ℝ` where the code takes a
  square root (the numpy `std` normalisation of the projection basis), `ℚ`
  elsewhere;
* the numpy global random generator is a state `(seed, position)`: `np.random.seed`
  resets it, `np.random.randn(m, n)` advances the position by `m * n` and reads the
  Gaussian sample stream `gaussStream seed k` (the stream itself is an external
  parameter — numpy's Gaussian sampler);
* Python's `random` module global state (used for the auto-generated temporary
  folder name) is an abstract `Nat` advanced by `random.choices`;
* the filesystem is the list of existing directories; `mkdir(exist_ok=True)`
  inserts a path;
* external collaborators that live outside the embedded source file
  (`run_node_pipeline`, `hdbscan.hdbscan`, `estimate_templates`,
  `get_noise_levels`, `remove_duplicates_via_matching`) are fields of a
  capability record `Caps`; the guarantees the spec gives for them are separate
  contract predicates, modelled from the spec;
* fallible stages return `Except RunError`; an exception propagates out of
  `main_function`, and the world (filesystem / RNG states) at that moment is
  returned alongside.
-/

/-- A recording: channel count, sampling frequency, channel ids
(source: `recording.get_num_channels()`, `recording.get_sampling_frequency()`,
`recording.channel_ids`). -/
structure Recording where
  num_channels : Nat
  sampling_frequency : ℚ
  channel_ids : List Nat
deriving DecidableEq

/-- One detected peak (fields of the structured `peaks` array that
`main_function` reads: `sample_index`, `segment_index`). -/
structure Peak where
  sample_index : Nat
  segment_index : Nat
deriving DecidableEq

/-- One entry of the `spikes` array built at lines 137–141 of
`random_projections.py` (`minimum_spike_dtype` fields used there). -/
structure Spike where
  sample_index : Nat
  segment_index : Nat
  unit_index : Int
deriving DecidableEq

/-- The `params` dictionary of `main_function`, restricted to the keys the
embedded orchestration reads.  `noise_levels` is `none` when the caller passed
`None`. -/
structure Params where
  nb_projections : Nat
  random_seed : Nat
  ms_before : ℚ
  ms_after : ℚ
  radius_um : ℚ
  sparsity_threshold : ℚ
  noise_levels : Option (List ℚ)
  tmp_folder : Option String
deriving DecidableEq

/-- Ambient mutable state a run of `main_function` can read or write:
the filesystem (list of existing directories), the numpy global RNG state
`(seed, position-in-stream)`, and the Python `random`-module global state. -/
structure World where
  fs : List String
  npState : Nat × Nat
  pyState : Nat
deriving DecidableEq

/-- Errors a pipeline stage can raise (exceptions propagating out of
`main_function`). -/
inductive RunError where
  | pipelineFailure
  | clusteringFailure
  | templateFailure
  | dedupFailure
deriving DecidableEq

/-- A dense per-unit template: unit id plus per-channel sample lists
(one row of `templates_array` together with its unit id). -/
structure UnitTemplate where
  uid : Int
  waveform : List (List ℚ)
deriving DecidableEq

/-- A sparse per-unit template after `compute_sparsity` / `to_sparse`:
the dense data plus the per-channel boolean sparsity mask. -/
structure SparseUnitTemplate where
  uid : Int
  waveform : List (List ℚ)
  mask : List Bool
deriving DecidableEq

/-- What `main_function` returns on success: `labels` (the unit id list) and
`peak_labels` (per-peak labels), both as returned by
`remove_duplicates_via_matching`, plus the final state of the caller-supplied
`params` dictionary (the dictionary is mutated in place at lines 155–156). -/
structure MainResult where
  labels : List Int
  peak_labels : List Int
  params_out : Params
deriving DecidableEq

/- ## Column statistics (numpy `mean(0)` / `std(0)` on one column) -/

/-- numpy mean of a 1-d array (division by zero yields 0, matching Lean's
convention; the code never takes the mean of an empty axis). -/
noncomputable def colMean (l : List ℝ) : ℝ := l.sum / l.length

/-- One column after `projections -= projections.mean(0)` (line 107). -/
noncomputable def colCentered (l : List ℝ) : List ℝ := l.map (fun x => x - colMean l)

/-- numpy population variance of a 1-d array: mean of squared deviations. -/
noncomputable def colPopVar (l : List ℝ) : ℝ := colMean (l.map (fun x => (x - colMean l) ^ 2))

/-- numpy `std` of a 1-d array: square root of the population variance. -/
noncomputable def colStd (l : List ℝ) : ℝ := Real.sqrt (colPopVar l)

/-- Lines 107–108 applied to one column: subtract the column mean, then divide
by the `std` of the (already centered) column — numpy evaluates
`projections /= projections.std(0)` on the matrix mutated at line 107. -/
noncomputable def normalizeColumn (l : List ℝ) : List ℝ :=
  (colCentered l).map (fun x => x / colStd (colCentered l))

/-- Column `j` of the raw `np.random.randn(num_chans, num_projections)` draw
(row-major Gaussian stream consumption), with
`num_projections = min num_chans nb_projections` (line 104). -/
noncomputable def rawColumn (gauss : Nat → Nat → ℝ) (seed num_chans nb_projections j : Nat) :
    List ℝ :=
  (List.range num_chans).map (fun i => gauss seed (i * min num_chans nb_projections + j))

/-- Lines 104–108: the random projection basis, represented column-wise
(each element is one projection column of length `num_chans`); columns are
normalised only when `1 < num_chans` (line 106). -/
noncomputable def buildProjections (gauss : Nat → Nat → ℝ)
    (seed num_chans nb_projections : Nat) : List (List ℝ) :=
  let raw := (List.range (min num_chans nb_projections)).map
    (rawColumn gauss seed num_chans nb_projections)
  if 1 < num_chans then raw.map normalizeColumn else raw

/- ## Clustering post-processing (lines 131–159) -/

/-- Insert into a sorted duplicate-free list, keeping it sorted and
duplicate-free (building block for `np.unique`). -/
def sortedInsert (x : Int) : List Int → List Int
  | [] => [x]
  | y :: ys =>
    if x = y then y :: ys
    else if x < y then x :: y :: ys
    else y :: sortedInsert x ys

/-- `np.unique`: the sorted list of distinct values. -/
def npUnique (l : List Int) : List Int := l.foldr sortedInsert []

/-- Lines 134–135: `labels = np.unique(peak_labels); labels = labels[labels >= 0]`. -/
def nonSentinelLabels (peak_labels : List Int) : List Int :=
  (npUnique peak_labels).filter (fun l => 0 ≤ l)

/-- Lines 137–141: the `spikes` array — one record per peak whose label is
`> -1`, carrying the peak's sample and segment indices and its cluster label. -/
def spikesFrom (peaks : List Peak) (peak_labels : List Int) : List Spike :=
  ((peaks.zip peak_labels).filter (fun pl => -1 < pl.2)).map
    (fun pl => ⟨pl.1.sample_index, pl.1.segment_index, pl.2⟩)

/-- Line 143: `unit_ids = np.arange(len(np.unique(spikes["unit_index"])))`. -/
def unitIdsOf (spikes : List Spike) : List Int :=
  (List.range (npUnique (spikes.map (fun s => s.unit_index))).length).map
    (fun n => (n : Int))

/-- `np.ptp`: peak-to-peak amplitude (max minus min) of one channel's samples. -/
def ptp : List ℚ → ℚ
  | [] => 0
  | x :: xs => xs.foldl max x - xs.foldl min x

/-- Modelled from the spec: `compute_sparsity(templates, noise_levels, method="ptp",
threshold=...)` (external to the embedded file).  Per §4.7 a channel is kept
when the channel's peak-to-peak amplitude exceeds its noise level times the
threshold factor; one boolean mask per unit, one entry per channel. -/
def computeSparsityPtp (units : List UnitTemplate) (noise : List ℚ) (threshold : ℚ) :
    List (List Bool) :=
  units.map (fun ut => (ut.waveform.zip noise).map (fun p => decide (p.2 * threshold < ptp p.1)))

/-- Line 158: `templates.to_sparse(sparsity)` — attach each unit's sparsity mask. -/
def toSparseUnits (units : List UnitTemplate) (masks : List (List Bool)) :
    List SparseUnitTemplate :=
  (units.zip masks).map (fun p => ⟨p.1.uid, p.1.waveform, p.2⟩)

/-- Modelled from the spec: `remove_empty_templates` (external to the embedded
file).  Per §4.7 "units left with an empty channel subset are dropped": keep
exactly the units whose sparsity mask retains at least one channel. -/
def removeEmptyTemplates (ts : List SparseUnitTemplate) : List SparseUnitTemplate :=
  ts.filter (fun t => t.mask.contains true)

/- ## External capabilities and their spec contracts -/

/-- The external collaborators `main_function` calls, as explicit functional
capabilities (all are deterministic functions of their inputs):
`gaussStream` is numpy's Gaussian sample stream (per seed), `pyChoices` is
`random.choices(...)` on the Python `random` module's global state,
`globalTmpFolder` is `get_global_tmp_folder()`, and the remaining fields are
`run_node_pipeline` (feature extraction over the node graph built at lines
92–123), `hdbscan.hdbscan` (first component of the returned tuple),
`estimate_templates`, `get_noise_levels` and `remove_duplicates_via_matching`. -/
structure Caps where
  gaussStream : Nat → Nat → ℝ
  pyChoices : Nat → String × Nat
  globalTmpFolder : String
  runPipeline : Recording → List Peak → List (List ℝ) → Except RunError (List (List ℝ))
  hdbscanCluster : List (List ℝ) → Except RunError (List Int)
  estimateTemplates : Recording → List Spike → List Int →
    Except RunError (List (List (List ℚ)))
  getNoiseLevels : Recording → List ℚ
  removeDuplicatesViaMatching : List SparseUnitTemplate → List Int → String →
    Except RunError (List Int × List Int)

/-- Modelled from the spec (§4.1): the pipeline executor returns one feature
row per input peak, in peak order. -/
def PipelineContract (caps : Caps) : Prop :=
  ∀ rec peaks proj feats, caps.runPipeline rec peaks proj = .ok feats →
    feats.length = peaks.length

/-- Modelled from the spec (§4.5): the density clusterer returns one integer
label per feature row; negative values are the noise sentinel. -/
def HdbscanContract (caps : Caps) : Prop :=
  ∀ data out, caps.hdbscanCluster data = .ok out → out.length = data.length

/-- Modelled from the spec (§4.8): the duplicate resolver conserves the peak
count, returns surviving unit ids drawn from the input template set, relabels
every peak either to the sentinel or to a surviving unit, and never gives a
label to a peak that was sentinel before the merge. -/
def DedupContract (caps : Caps) : Prop :=
  ∀ ts pl tmp lab newpl,
    caps.removeDuplicatesViaMatching ts pl tmp = .ok (lab, newpl) →
      newpl.length = pl.length ∧
      (∀ u ∈ lab, ∃ t ∈ ts, t.uid = u) ∧
      (∀ l ∈ newpl, l < 0 ∨ l ∈ lab) ∧
      (∀ i : Nat, 0 ≤ newpl.getD i (-1) → 0 ≤ pl.getD i (-1))

/- ## The embedded `main_function` -/

/-- Lines 84–88: the temporary-folder path and the Python `random` state after
choosing it (an 8-character name drawn from the module's global generator when
`params["tmp_folder"]` is `None`, the given path otherwise). -/
def tmpFolderChoice (caps : Caps) (params : Params) (pyState : Nat) : String × Nat :=
  match params.tmp_folder with
  | none =>
    let p := caps.pyChoices pyState
    (caps.globalTmpFolder ++ "/" ++ p.1, p.2)
  | some p => (p, pyState)

/-- Lines 155–156: the noise levels used for sparsity, and the state of the
`params` dictionary afterwards (mutated in place when `noise_levels` was `None`). -/
def noiseChoice (caps : Caps) (recording : Recording) (params : Params) :
    List ℚ × Params :=
  match params.noise_levels with
  | none =>
    let nl := caps.getNoiseLevels recording
    (nl, { params with noise_levels := some nl })
  | some nl => (nl, params)

/-- Lines 148–159 condensed: dense unit templates from the estimated arrays,
then sparsity masks, `to_sparse`, and `remove_empty_templates` — the template
set handed to `remove_duplicates_via_matching`. -/
def cleanTemplates (unit_ids : List Int) (templates_array : List (List (List ℚ)))
    (noise : List ℚ) (threshold : ℚ) : List SparseUnitTemplate :=
  let units := (unit_ids.zip templates_array).map (fun p => UnitTemplate.mk p.1 p.2)
  removeEmptyTemplates (toSparseUnits units (computeSparsityPtp units noise threshold))

/-- The value-level part of `main_function` (lines 92–183): everything the
function computes or raises after the temporary folder path is fixed — feature
pipeline (125–127), clustering (131–132), spike and unit-id assembly (134–143,
including the dead local of lines 134–135, kept as `_labels`), template
estimation (148–153), noise levels (155–156), sparsity and empty-template
removal (157–159), duplicate removal (176–178), final return (183). -/
noncomputable def mainCompute (caps : Caps) (recording : Recording) (peaks : List Peak)
    (params : Params) (tmp_folder : String) : Except RunError MainResult :=
  match caps.runPipeline recording peaks
      (buildProjections caps.gaussStream params.random_seed
        recording.num_channels params.nb_projections) with
  | .error e => .error e
  | .ok hdbscan_data =>
    match caps.hdbscanCluster hdbscan_data with
    | .error e => .error e
    | .ok peak_labels =>
      let _labels := nonSentinelLabels peak_labels
      let spikes := spikesFrom peaks peak_labels
      let unit_ids := unitIdsOf spikes
      match caps.estimateTemplates recording spikes unit_ids with
      | .error e => .error e
      | .ok templates_array =>
        let noiseP := noiseChoice caps recording params
        let ts := cleanTemplates unit_ids templates_array noiseP.1 params.sparsity_threshold
        match caps.removeDuplicatesViaMatching ts peak_labels tmp_folder with
        | .error e => .error e
        | .ok out => .ok ⟨out.1, out.2, noiseP.2⟩

/-- Shallow embedding of `RandomProjectionClustering.main_function`
(lines 66–183 of `random_projections.py`).  Effects, in source order:
`np.random.seed(d["random_seed"])` resets the global numpy RNG (line 82);
the temporary folder path is chosen — drawing from Python's global `random`
module when `params["tmp_folder"]` is `None` (lines 84–88) — and created
(line 90); `np.random.randn(num_chans, num_projections)` advances the global
numpy RNG by `num_chans * min(num_chans, nb_projections)` draws (lines
104–105).  The value part (`mainCompute`) raises or returns; the world —
filesystem and both global RNG states — is the same on every exit path, since
no effectful operation happens after line 105 (in particular nothing ever
removes the temporary folder). -/
noncomputable def mainFunction (caps : Caps) (recording : Recording) (peaks : List Peak)
    (params : Params) (w : World) : Except RunError MainResult × World :=
  let tmpP := tmpFolderChoice caps params w.pyState
  let fs1 := if tmpP.1 ∈ w.fs then w.fs else tmpP.1 :: w.fs
  let num_projections := min recording.num_channels params.nb_projections
  (mainCompute caps recording peaks params tmpP.1,
    ⟨fs1, (params.random_seed, recording.num_channels * num_projections), tmpP.2⟩)

/- ## Concrete capability instantiations (used by witnesses and counterexamples) -/

/-- Benign concrete instantiations of the external capabilities, satisfying the
spec contracts: the pipeline yields one (empty) feature row per peak, the
clusterer puts every peak in cluster 0, template estimation yields one
one-channel two-sample template per unit, and duplicate removal keeps every
unit, re-labelling peaks whose label is not a surviving unit id to the
sentinel. -/
noncomputable def benignCaps : Caps where
  gaussStream := fun _ _ => 0
  pyChoices := fun s => ("AAAAAAAA", s + 1)
  globalTmpFolder := "/tmp/si"
  runPipeline := fun _ peaks _ => .ok (peaks.map fun _ => [])
  hdbscanCluster := fun data => .ok (data.map fun _ => 0)
  estimateTemplates := fun _ _ uids => .ok (uids.map fun _ => [[0, 1]])
  getNoiseLevels := fun _ => [1]
  removeDuplicatesViaMatching := fun ts pl _ =>
    .ok (ts.map (fun t => t.uid),
      pl.map (fun l => if l ∈ ts.map (fun t => t.uid) then l else -1))

/-- `benignCaps` with a clusterer that labels every peak with the noise
sentinel `-1` (for the zero-cluster scenario). -/
noncomputable def sentinelCaps : Caps :=
  { benignCaps with hdbscanCluster := fun data => .ok (data.map fun _ => -1) }

/-- `benignCaps` with a clusterer that raises (for the error-path scenario). -/
noncomputable def failingClusterCaps : Caps :=
  { benignCaps with hdbscanCluster := fun _ => .error .clusteringFailure }

/-- `benignCaps` with a Python `random` state-dependent folder name and a
duplicate-removal capability that is a deterministic function of its inputs but
sensitive to the temporary-folder path it is handed. -/
noncomputable def folderSensitiveCaps : Caps :=
  { benignCaps with
    pyChoices := fun s => (if s = 0 then "AAAAAAAA" else "BBBBBBBB", s + 1)
    removeDuplicatesViaMatching := fun _ pl tmp =>
      .ok ((if tmp = "/tmp/si/AAAAAAAA" then [0] else []), pl.map fun _ => -1) }

/-- A one-channel recording used in concrete runs. -/
def oneChanRec : Recording := ⟨1, 30000, [0]⟩

/-- A single concrete peak. -/
def onePeak : List Peak := [⟨3, 0⟩]

/-- Concrete parameters with an explicit temporary folder and no precomputed
noise levels. -/
def fixedTmpParams : Params :=
  { nb_projections := 2, random_seed := 42, ms_before := 1/2, ms_after := 1/2
    radius_um := 50, sparsity_threshold := 1/4, noise_levels := none
    tmp_folder := some "/x" }

/-- Concrete parameters with `tmp_folder = None` (auto-generated folder name). -/
def autoTmpParams : Params := { fixedTmpParams with tmp_folder := none }

/-- A concrete initial world: empty filesystem, numpy RNG state `(7, 3)`,
Python `random` state `0`. -/
def startWorld : World := ⟨[], (7, 3), 0⟩

/-- The Gaussian stream used in the basis-normalization witness: the first
sample is `1`, all later samples are `-1`. -/
noncomputable def witnessGauss : Nat → Nat → ℝ := fun _ k => if k = 0 then 1 else -1

/- ## The preprocessor module (`basepreprocessor.py`) -/

/-- Python error kinds raised by the embedded preprocessor module. -/
inductive PyError where
  | attributeError
  | notImplementedError
deriving DecidableEq

/-- `BasePreprocessorSegment.__init__` (lines 19–21 of `basepreprocessor.py`):
evaluates `BaseRecordingSegment.__inti__(self)`.  The attribute access on the
class raises `AttributeError` unless the base class's attribute table contains
a member literally named `__inti__`; only then does construction succeed. -/
def instantiateBasePreprocessorSegment (baseAttrs : List String) : Except PyError Unit :=
  if "__inti__" ∈ baseAttrs then .ok () else .error .attributeError

/-- `BasePreprocessorSegment.get_traces` (lines 23–24 of `basepreprocessor.py`):
unconditionally raises `NotImplementedError`. -/
def basePreprocessorSegmentGetTraces (start_frame end_frame : Nat)
    (channel_indices : List Nat) : Except PyError (List (List ℚ)) :=
  .error .notImplementedError

/-- Modelled from the spec: the attribute table of the external class
`BaseRecordingSegment` (defined in `spikeinterface.core`, outside the embedded
sources).  It provides the standard recording-segment interface; it has no
attribute named `__inti__` (a Python class only has the attributes its
definition introduces, and `__inti__` is the misspelling the claim points at,
not an interface member). -/
def baseRecordingSegmentAttrs : List String :=
  ["__init__", "get_num_samples", "get_times", "sample_index_to_time"]

/- ## Helper lemmas: column statistics -/

theorem sum_map_sub_const (l : List ℝ) (m : ℝ) :
    (l.map (fun x => x - m)).sum = l.sum - l.length * m := by
  induction l with
  | nil => simp
  | cons a t ih => simp [ih]; ring

theorem sum_map_div_const (l : List ℝ) (s : ℝ) :
    (l.map (fun x => x / s)).sum = l.sum / s := by
  induction l with
  | nil => simp
  | cons a t ih => simp [ih, add_div]

theorem colMean_map_div (l : List ℝ) (s : ℝ) :
    colMean (l.map (fun x => x / s)) = colMean l / s := by
  simp [colMean, sum_map_div_const, div_right_comm]

theorem colMean_centered (l : List ℝ) : colMean (colCentered l) = 0 := by
  rcases l with _ | ⟨a, t⟩
  · simp [colCentered, colMean]
  · have hlen : ((a :: t).length : ℝ) ≠ 0 := by
      simp only [List.length_cons]
      push_cast
      positivity
    simp only [colCentered, colMean, sum_map_sub_const, List.length_map]
    rw [div_eq_iff hlen]
    field_simp

theorem colPopVar_nonneg (l : List ℝ) : 0 ≤ colPopVar l := by
  unfold colPopVar colMean
  apply div_nonneg
  · apply List.sum_nonneg
    intro x hx
    rcases List.mem_map.mp hx with ⟨y, _, rfl⟩
    positivity
  · positivity

theorem colStd_sq (l : List ℝ) : colStd l ^ 2 = colPopVar l :=
  Real.sq_sqrt (colPopVar_nonneg l)

theorem colPopVar_map_div (l : List ℝ) (s : ℝ) :
    colPopVar (l.map (fun x => x / s)) = colPopVar l / s ^ 2 := by
  unfold colPopVar
  simp only [colMean_map_div]
  have h1 : ((l.map (fun x => x / s)).map (fun x => (x - colMean l / s) ^ 2))
      = ((l.map fun x => (x - colMean l) ^ 2).map fun y => y / s ^ 2) := by
    rw [List.map_map, List.map_map]
    apply List.map_congr_left
    intro x _
    simp only [Function.comp]
    rw [div_sub_div_same, div_pow]
  rw [h1, colMean_map_div]

theorem normalizeColumn_mean (l : List ℝ) : colMean (normalizeColumn l) = 0 := by
  unfold normalizeColumn
  rw [colMean_map_div, colMean_centered, zero_div]

theorem normalizeColumn_var (l : List ℝ) (hv : colPopVar (colCentered l) ≠ 0) :
    colPopVar (normalizeColumn l) = 1 := by
  unfold normalizeColumn
  rw [colPopVar_map_div, colStd_sq, div_self hv]

theorem normalizeColumn_std (l : List ℝ) (hv : colPopVar (colCentered l) ≠ 0) :
    colStd (normalizeColumn l) = 1 := by
  unfold colStd
  rw [normalizeColumn_var l hv, Real.sqrt_one]

theorem normalizeColumn_length (l : List ℝ) :
    (normalizeColumn l).length = l.length := by
  simp [normalizeColumn, colCentered]

theorem rawColumn_length (gauss : Nat → Nat → ℝ) (seed num_chans nb_projections j : Nat) :
    (rawColumn gauss seed num_chans nb_projections j).length = num_chans := by
  simp [rawColumn]

theorem buildProjections_getD (gauss : Nat → Nat → ℝ) (seed num_chans nb_projections j : Nat)
    (h1 : 1 < num_chans) (hj : j < min num_chans nb_projections) :
    (buildProjections gauss seed num_chans nb_projections).getD j []
      = normalizeColumn (rawColumn gauss seed num_chans nb_projections j) := by
  unfold buildProjections
  rw [if_pos h1, List.map_map, List.getD_eq_getElem?_getD]
  simp [List.getElem?_map, List.getElem?_range hj]

/- ## Helper lemmas: np.unique, spikes, getD -/

theorem mem_sortedInsert (x y : Int) (l : List Int) (h : y ∈ sortedInsert x l) :
    y = x ∨ y ∈ l := by
  induction l with
  | nil => simpa [sortedInsert] using h
  | cons a t ih =>
    unfold sortedInsert at h
    by_cases h1 : x = a
    · rw [if_pos h1] at h
      right
      exact h
    · rw [if_neg h1] at h
      by_cases h2 : x < a
      · rw [if_pos h2] at h
        rcases List.mem_cons.mp h with h3 | h3
        · left; exact h3
        · right; exact h3
      · rw [if_neg h2] at h
        rcases List.mem_cons.mp h with h3 | h3
        · right; exact List.mem_cons.mpr (Or.inl h3)
        · rcases ih h3 with h4 | h4
          · left; exact h4
          · right; exact List.mem_cons.mpr (Or.inr h4)

theorem mem_npUnique (x : Int) (l : List Int) (h : x ∈ npUnique l) : x ∈ l := by
  induction l with
  | nil => simpa [npUnique] using h
  | cons a t ih =>
    have h2 : x ∈ sortedInsert a (npUnique t) := h
    rcases mem_sortedInsert a x (npUnique t) h2 with h3 | h3
    · exact List.mem_cons.mpr (Or.inl h3)
    · exact List.mem_cons.mpr (Or.inr (ih h3))

theorem nonSentinelLabels_of_all_sentinel (pl : List Int) (h : ∀ l ∈ pl, l < 0) :
    nonSentinelLabels pl = [] := by
  apply List.filter_eq_nil_iff.mpr
  intro x hx
  have hm := mem_npUnique x pl hx
  simp only [decide_eq_true_eq]
  exact not_le.mpr (h x hm)

theorem spikesFrom_of_all_sentinel (peaks : List Peak) (pl : List Int)
    (h : ∀ l ∈ pl, l < 0) : spikesFrom peaks pl = [] := by
  unfold spikesFrom
  have hf : (peaks.zip pl).filter (fun pr => -1 < pr.2) = [] := by
    apply List.filter_eq_nil_iff.mpr
    intro x hx
    have hm := (List.of_mem_zip hx).2
    have hneg := h x.2 hm
    simp only [decide_eq_true_eq]
    omega
  rw [hf]
  rfl

theorem getD_map_eval (f : Int → Int) (hf : f (-1) = -1) (l : List Int) (i : Nat) :
    (l.map f).getD i (-1) = f (l.getD i (-1)) := by
  induction l generalizing i with
  | nil => simp [hf]
  | cons a t ih =>
    cases i with
    | zero => simp
    | succ n => simpa using ih n

/- ## Helper lemmas: run inversion -/

theorem mainCompute_ok_inversion (caps : Caps) (recording : Recording)
    (peaks : List Peak) (params : Params) (tmp : String) (res : MainResult)
    (h : mainCompute caps recording peaks params tmp = .ok res) :
    ∃ feats pl arr,
      caps.runPipeline recording peaks
        (buildProjections caps.gaussStream params.random_seed
          recording.num_channels params.nb_projections) = .ok feats ∧
      caps.hdbscanCluster feats = .ok pl ∧
      caps.estimateTemplates recording (spikesFrom peaks pl)
        (unitIdsOf (spikesFrom peaks pl)) = .ok arr ∧
      caps.removeDuplicatesViaMatching
        (cleanTemplates (unitIdsOf (spikesFrom peaks pl)) arr
          (noiseChoice caps recording params).1 params.sparsity_threshold)
        pl tmp = .ok (res.labels, res.peak_labels) ∧
      res.params_out = (noiseChoice caps recording params).2 := by
  simp only [mainCompute] at h
  split at h
  · exact absurd h (by simp)
  · rename_i feats hfeats
    split at h
    · exact absurd h (by simp)
    · rename_i pl hpl
      split at h
      · exact absurd h (by simp)
      · rename_i arr harr
        split at h
        · exact absurd h (by simp)
        · rename_i out hout
          cases h
          exact ⟨feats, pl, arr, hfeats, hpl, harr, by simpa using hout, rfl⟩

theorem mainFunction_fst (caps : Caps) (recording : Recording) (peaks : List Peak)
    (params : Params) (w : World) :
    (mainFunction caps recording peaks params w).1
      = mainCompute caps recording peaks params (tmpFolderChoice caps params w.pyState).1 :=
  rfl

/- ## Helper lemmas: the benign capabilities satisfy the spec contracts -/

theorem benignCaps_pipeline_contract : PipelineContract benignCaps := by
  intro rec peaks proj feats h
  simp only [benignCaps] at h
  cases h
  simp

theorem benignCaps_hdbscan_contract : HdbscanContract benignCaps := by
  intro data out h
  simp only [benignCaps] at h
  cases h
  simp

theorem benign_dedup_contract (ts : List SparseUnitTemplate) (pl : List Int)
    (lab newpl : List Int)
    (hlab : lab = ts.map (fun t => t.uid))
    (hnew : newpl = pl.map (fun l => if l ∈ ts.map (fun t => t.uid) then l else -1)) :
      newpl.length = pl.length ∧
      (∀ u ∈ lab, ∃ t ∈ ts, t.uid = u) ∧
      (∀ l ∈ newpl, l < 0 ∨ l ∈ lab) ∧
      (∀ i : Nat, 0 ≤ newpl.getD i (-1) → 0 ≤ pl.getD i (-1)) := by
  subst hlab
  subst hnew
  refine ⟨by simp, ?_, ?_, ?_⟩
  · intro u hu
    rcases List.mem_map.mp hu with ⟨t, ht, rfl⟩
    exact ⟨t, ht, rfl⟩
  · intro l hl
    rcases List.mem_map.mp hl with ⟨x, _, rfl⟩
    by_cases hc : x ∈ ts.map (fun t => t.uid)
    · rw [if_pos hc]
      exact Or.inr hc
    · rw [if_neg hc]
      exact Or.inl (by norm_num)
  · intro i hi
    rw [getD_map_eval _ (by simp) _ _] at hi
    by_cases hc : pl.getD i (-1) ∈ ts.map (fun t => t.uid)
    · rwa [if_pos hc] at hi
    · rw [if_neg hc] at hi
      exact absurd hi (by norm_num)

theorem benignCaps_dedup_contract : DedupContract benignCaps := by
  intro ts pl tmp lab newpl h
  simp only [benignCaps] at h
  have h2 := (Except.ok.injEq _ _).mp h
  exact benign_dedup_contract ts pl lab newpl
    ((Prod.mk.injEq _ _ _ _).mp h2).1.symm ((Prod.mk.injEq _ _ _ _).mp h2).2.symm

theorem sentinelCaps_pipeline_contract : PipelineContract sentinelCaps := by
  intro rec peaks proj feats h
  simp only [sentinelCaps, benignCaps] at h
  cases h
  simp

theorem sentinelCaps_hdbscan_contract : HdbscanContract sentinelCaps := by
  intro data out h
  simp only [sentinelCaps] at h
  cases h
  simp

theorem sentinelCaps_dedup_contract : DedupContract sentinelCaps := by
  intro ts pl tmp lab newpl h
  simp only [sentinelCaps, benignCaps] at h
  have h2 := (Except.ok.injEq _ _).mp h
  exact benign_dedup_contract ts pl lab newpl
    ((Prod.mk.injEq _ _ _ _).mp h2).1.symm ((Prod.mk.injEq _ _ _ _).mp h2).2.symm

theorem sentinelCaps_all_sentinel (data : List (List ℝ)) (out : List Int)
    (h : sentinelCaps.hdbscanCluster data = .ok out) : ∀ l ∈ out, l < 0 := by
  simp only [sentinelCaps] at h
  cases h
  intro l hl
  rcases List.mem_map.mp hl with ⟨x, _, rfl⟩
  norm_num

/- ## Helper lemmas: concrete runs -/

theorem ptp_eval : ptp [(0 : ℚ), 1] = 1 := by
  norm_num [ptp, List.foldl_cons, List.foldl_nil, max_def, min_def]

theorem benign_run :
    mainFunction benignCaps oneChanRec onePeak fixedTmpParams startWorld
      = (.ok ⟨[0], [0], { fixedTmpParams with noise_levels := some [1] }⟩,
          ⟨["/x"], (42, 1), 0⟩) := by
  have hq : (4 : ℚ)⁻¹ < ptp [(0 : ℚ), 1] := by
    rw [ptp_eval]
    norm_num
  simp [mainFunction, mainCompute, tmpFolderChoice, noiseChoice, cleanTemplates,
    benignCaps, oneChanRec, onePeak, fixedTmpParams, startWorld, spikesFrom,
    unitIdsOf, npUnique, sortedInsert, computeSparsityPtp, toSparseUnits,
    removeEmptyTemplates, hq, List.range_succ]

theorem sentinel_run :
    mainFunction sentinelCaps oneChanRec onePeak fixedTmpParams startWorld
      = (.ok ⟨[], [-1], { fixedTmpParams with noise_levels := some [1] }⟩,
          ⟨["/x"], (42, 1), 0⟩) := rfl

theorem failing_run :
    mainFunction failingClusterCaps oneChanRec onePeak fixedTmpParams startWorld
      = (.error .clusteringFailure, ⟨["/x"], (42, 1), 0⟩) := rfl

theorem folder_run_zero :
    mainFunction folderSensitiveCaps oneChanRec [] autoTmpParams ⟨[], (7, 3), 0⟩
      = (.ok ⟨[0], [], { autoTmpParams with noise_levels := some [1] }⟩,
          ⟨["/tmp/si/AAAAAAAA"], (42, 1), 1⟩) := rfl

theorem folder_run_one :
    mainFunction folderSensitiveCaps oneChanRec [] autoTmpParams ⟨[], (7, 3), 1⟩
      = (.ok ⟨[], [], { autoTmpParams with noise_levels := some [1] }⟩,
          ⟨["/tmp/si/BBBBBBBB"], (42, 1), 2⟩) := rfl

/- ## Claim theorems -/

/-- C1 — peak conservation: under the spec contracts for the external feature
pipeline, clusterer and duplicate-removal capabilities, every successful run of
`main_function` returns a per-peak label array of exactly the length (and
order) of the input peak list, in which every entry is either the noise
sentinel (a negative value) or a unit id present in the returned unit id list;
and the duplicate-removal pass only remaps or sentinels existing labels: the
pre-merge label array — pinned as the clusterer output actually handed to the
duplicate-removal call that produced the returned result — has the peaks'
length, and any peak labelled non-sentinel on output was already non-sentinel
in it before the merge. -/
theorem c1_peak_conservation (caps : Caps) (recording : Recording) (peaks : List Peak)
    (params : Params) (w : World) (res : MainResult) (wOut : World)
    (hPipe : PipelineContract caps) (hHdb : HdbscanContract caps)
    (hDedup : DedupContract caps)
    (hrun : mainFunction caps recording peaks params w = (.ok res, wOut)) :
    res.peak_labels.length = peaks.length ∧
    (∀ l ∈ res.peak_labels, l < 0 ∨ l ∈ res.labels) ∧
    (∃ feats pre arr,
      caps.runPipeline recording peaks
        (buildProjections caps.gaussStream params.random_seed
          recording.num_channels params.nb_projections) = .ok feats ∧
      caps.hdbscanCluster feats = .ok pre ∧
      caps.estimateTemplates recording (spikesFrom peaks pre)
        (unitIdsOf (spikesFrom peaks pre)) = .ok arr ∧
      caps.removeDuplicatesViaMatching
        (cleanTemplates (unitIdsOf (spikesFrom peaks pre)) arr
          (noiseChoice caps recording params).1 params.sparsity_threshold)
        pre (tmpFolderChoice caps params w.pyState).1
        = .ok (res.labels, res.peak_labels) ∧
      pre.length = peaks.length ∧
      (∀ i : Nat, 0 ≤ res.peak_labels.getD i (-1) → 0 ≤ pre.getD i (-1))) := by
  have hok : mainCompute caps recording peaks params
      (tmpFolderChoice caps params w.pyState).1 = .ok res := by
    rw [← mainFunction_fst, hrun]
  obtain ⟨feats, pl, arr, hfeats, hpl, harr, hded, hparams⟩ :=
    mainCompute_ok_inversion _ _ _ _ _ _ hok
  obtain ⟨hlen, hsub, hmem, hpres⟩ := hDedup _ _ _ _ _ hded
  have hplen : pl.length = peaks.length := (hHdb _ _ hpl).trans (hPipe _ _ _ _ hfeats)
  exact ⟨hlen.trans hplen, hmem, feats, pl, arr, hfeats, hpl, harr, hded, hplen, hpres⟩

/-- Witness for C1: a concrete successful run (benign contract-satisfying
capabilities, one peak, one unit) realising the hypotheses and the conclusion. -/
theorem c1_peak_conservation_witness :
    (mainFunction benignCaps oneChanRec onePeak fixedTmpParams startWorld
      = (.ok ⟨[0], [0], { fixedTmpParams with noise_levels := some [1] }⟩,
          ⟨["/x"], (42, 1), 0⟩)) ∧
    (([(0 : Int)].length = onePeak.length ∧
      (∀ l ∈ ([(0 : Int)] : List Int), l < 0 ∨ l ∈ ([(0 : Int)] : List Int)) ∧
      (∃ feats pre arr,
        benignCaps.runPipeline oneChanRec onePeak
          (buildProjections benignCaps.gaussStream 42 1 2) = .ok feats ∧
        benignCaps.hdbscanCluster feats = .ok pre ∧
        benignCaps.estimateTemplates oneChanRec (spikesFrom onePeak pre)
          (unitIdsOf (spikesFrom onePeak pre)) = .ok arr ∧
        benignCaps.removeDuplicatesViaMatching
          (cleanTemplates (unitIdsOf (spikesFrom onePeak pre)) arr
            (noiseChoice benignCaps oneChanRec fixedTmpParams).1
            fixedTmpParams.sparsity_threshold)
          pre (tmpFolderChoice benignCaps fixedTmpParams startWorld.pyState).1
          = .ok ([0], [0]) ∧
        pre.length = onePeak.length ∧
        (∀ i : Nat, 0 ≤ ([(0 : Int)] : List Int).getD i (-1) → 0 ≤ pre.getD i (-1))))) := by
  refine ⟨benign_run, ?_⟩
  exact c1_peak_conservation benignCaps oneChanRec onePeak fixedTmpParams startWorld
    _ _ benignCaps_pipeline_contract benignCaps_hdbscan_contract
    benignCaps_dedup_contract benign_run

/-- C2 counterexample — the determinism claim fails as stated: with
`tmp_folder = None`, the auto-generated folder name is drawn from Python's
global `random` module, which `np.random.seed(random_seed)` does not touch, so
two independent runs (identical seed, recording, peak list and configuration,
but the ambient Python RNG state naturally differing between the runs) hand
different temporary-folder paths to the deterministic duplicate-removal
capability and can return different unit id lists and labels. -/
theorem c2_determinism_counterexample :
    (mainFunction folderSensitiveCaps oneChanRec [] autoTmpParams ⟨[], (7, 3), 0⟩).1
      ≠ (mainFunction folderSensitiveCaps oneChanRec [] autoTmpParams ⟨[], (7, 3), 1⟩).1 := by
  have h0 := congrArg Prod.fst folder_run_zero
  have h1 := congrArg Prod.fst folder_run_one
  rw [h0, h1]
  simp

/-- C2 amended — determinism holds for the basis and features always (they are
functions of the seed and the inputs alone), and for the final unit id list
and per-peak labels whenever the temporary folder is pinned in the
configuration: with `params["tmp_folder"]` set, the full returned value of
`main_function` is independent of the ambient RNG / filesystem state, hence
identical across independent runs with identical inputs. -/
theorem c2_determinism_amended (caps : Caps) (recording : Recording)
    (peaks : List Peak) (params : Params) (p : String)
    (hp : params.tmp_folder = some p) (w w' : World) :
    (mainFunction caps recording peaks params w).1
      = (mainFunction caps recording peaks params w').1 := by
  rw [mainFunction_fst, mainFunction_fst]
  simp only [tmpFolderChoice, hp]

/-- Witness for C2 (amended): two runs from different ambient states, equal
results. -/
theorem c2_determinism_amended_witness :
    fixedTmpParams.tmp_folder = some "/x" ∧
    (mainFunction benignCaps oneChanRec onePeak fixedTmpParams ⟨[], (7, 3), 0⟩).1
      = (mainFunction benignCaps oneChanRec onePeak fixedTmpParams ⟨[], (7, 3), 5⟩).1 :=
  ⟨rfl, c2_determinism_amended benignCaps oneChanRec onePeak fixedTmpParams "/x" rfl
    ⟨[], (7, 3), 0⟩ ⟨[], (7, 3), 5⟩⟩

/-- C3 — basis normalization: when the recording has more than one channel,
every column of the projection basis constructed by `main_function` (after the
one-time mean subtraction and std division of lines 106–108) has mean 0 and
standard deviation 1 across the channel axis, in exact arithmetic — provided
the raw Gaussian column is non-degenerate (non-zero variance; a.s. true for a
Gaussian draw, and division by a zero std is undefined in exact arithmetic). -/
theorem c3_basis_normalization (gauss : Nat → Nat → ℝ) (seed nc nbp j : Nat)
    (h1 : 1 < nc) (hj : j < min nc nbp)
    (hv : colPopVar (colCentered (rawColumn gauss seed nc nbp j)) ≠ 0) :
    colMean ((buildProjections gauss seed nc nbp).getD j []) = 0 ∧
    colStd ((buildProjections gauss seed nc nbp).getD j []) = 1 := by
  rw [buildProjections_getD gauss seed nc nbp j h1 hj]
  exact ⟨normalizeColumn_mean _, normalizeColumn_std _ hv⟩

/-- Witness for C3: a two-channel, one-projection basis built from the stream
`1, -1, -1, ...` — the raw column is `[1, -1]`, with variance 1. -/
theorem c3_basis_normalization_witness :
    ((1 : Nat) < 2 ∧ (0 : Nat) < min 2 1 ∧
      colPopVar (colCentered (rawColumn witnessGauss 42 2 1 0)) ≠ 0) ∧
    (colMean ((buildProjections witnessGauss 42 2 1).getD 0 []) = 0 ∧
     colStd ((buildProjections witnessGauss 42 2 1).getD 0 []) = 1) := by
  have hraw : rawColumn witnessGauss 42 2 1 0 = [1, -1] := rfl
  have hv : colPopVar (colCentered (rawColumn witnessGauss 42 2 1 0)) ≠ 0 := by
    rw [hraw]
    norm_num [colPopVar, colCentered, colMean, List.sum_cons, List.sum_nil,
      List.map_cons, List.map_nil, List.length_cons, List.length_nil]
  exact ⟨⟨by norm_num, by norm_num, hv⟩,
    c3_basis_normalization witnessGauss 42 2 1 0 (by norm_num) (by norm_num) hv⟩

/-- C4 — zero-cluster tolerance: if the clustering capability assigns the
(negative) sentinel to every peak, a run of `main_function` raises no error on
that account: the set of non-sentinel unique labels is empty, the `spikes`
array is empty, the unit id list is empty, and (under the duplicate-removal
contract) the returned unit id list is empty and the returned per-peak label
array is all-sentinel. -/
theorem c4_zero_cluster_tolerance (caps : Caps) (recording : Recording) (peaks : List Peak)
    (params : Params) (w : World) (res : MainResult) (wOut : World)
    (hDedup : DedupContract caps)
    (hSent : ∀ data out, caps.hdbscanCluster data = .ok out → ∀ l ∈ out, l < 0)
    (hrun : mainFunction caps recording peaks params w = (.ok res, wOut)) :
    ∃ feats pl,
      caps.runPipeline recording peaks
        (buildProjections caps.gaussStream params.random_seed
          recording.num_channels params.nb_projections) = .ok feats ∧
      caps.hdbscanCluster feats = .ok pl ∧
      nonSentinelLabels pl = [] ∧
      spikesFrom peaks pl = [] ∧
      unitIdsOf (spikesFrom peaks pl) = [] ∧
      res.labels = [] ∧
      (∀ l ∈ res.peak_labels, l < 0) := by
  have hok : mainCompute caps recording peaks params
      (tmpFolderChoice caps params w.pyState).1 = .ok res := by
    rw [← mainFunction_fst, hrun]
  obtain ⟨feats, pl, arr, hfeats, hpl, harr, hded, hparams⟩ :=
    mainCompute_ok_inversion _ _ _ _ _ _ hok
  have hall := hSent _ _ hpl
  have hspk := spikesFrom_of_all_sentinel peaks pl hall
  have huids : unitIdsOf (spikesFrom peaks pl) = [] := by
    rw [hspk]
    rfl
  obtain ⟨hlen, hsub, hmem, hpres⟩ := hDedup _ _ _ _ _ hded
  have hclean : cleanTemplates (unitIdsOf (spikesFrom peaks pl)) arr
      (noiseChoice caps recording params).1 params.sparsity_threshold = [] := by
    rw [huids]
    rfl
  rw [hclean] at hsub
  have hlab : res.labels = [] := by
    apply List.eq_nil_iff_forall_not_mem.mpr
    intro u hu
    rcases hsub u hu with ⟨t, ht, _⟩
    exact absurd ht (List.not_mem_nil t)
  refine ⟨feats, pl, hfeats, hpl, nonSentinelLabels_of_all_sentinel pl hall, hspk,
    huids, hlab, ?_⟩
  intro l hl
  rcases hmem l hl with h | h
  · exact h
  · rw [hlab] at h
    exact absurd h (List.not_mem_nil l)

/-- Witness for C4: a concrete run whose clusterer labels every peak `-1`
returns without error, with an empty unit list and an all-sentinel label
array. -/
theorem c4_zero_cluster_tolerance_witness :
    (mainFunction sentinelCaps oneChanRec onePeak fixedTmpParams startWorld
      = (.ok ⟨[], [-1], { fixedTmpParams with noise_levels := some [1] }⟩,
          ⟨["/x"], (42, 1), 0⟩)) ∧
    (∃ feats pl,
      sentinelCaps.runPipeline oneChanRec onePeak
        (buildProjections sentinelCaps.gaussStream 42 1 2) = .ok feats ∧
      sentinelCaps.hdbscanCluster feats = .ok pl ∧
      nonSentinelLabels pl = [] ∧
      spikesFrom onePeak pl = [] ∧
      unitIdsOf (spikesFrom onePeak pl) = [] ∧
      (MainResult.mk [] [-1] { fixedTmpParams with noise_levels := some [1] }).labels = [] ∧
      (∀ l ∈ (MainResult.mk [] [-1]
          { fixedTmpParams with noise_levels := some [1] }).peak_labels, l < 0)) := by
  refine ⟨sentinel_run, ?_⟩
  exact c4_zero_cluster_tolerance sentinelCaps oneChanRec onePeak fixedTmpParams
    startWorld _ _ sentinelCaps_dedup_contract sentinelCaps_all_sentinel sentinel_run

/-- C5 — the temporary working directory is NOT removed by `main_function`:
the embedded source contains no removal operation and no protection of the
error paths, so the created directory is still present in the returned
filesystem state on every exit path; in particular, on a concrete run whose
clustering stage raises, the error propagates and the directory `/x` persists.
(The spec demands scoped acquisition with guaranteed removal on all exit
paths; the code has none.) -/
theorem c5_tmp_folder_not_removed :
    (∀ caps recording peaks params w,
      (tmpFolderChoice caps params w.pyState).1
        ∈ (mainFunction caps recording peaks params w).2.fs) ∧
    (mainFunction failingClusterCaps oneChanRec onePeak fixedTmpParams startWorld).1
      = .error .clusteringFailure ∧
    "/x" ∈ (mainFunction failingClusterCaps oneChanRec onePeak fixedTmpParams
      startWorld).2.fs := by
  refine ⟨?_, ?_, ?_⟩
  · intro caps recording peaks params w
    simp only [mainFunction]
    split
    · assumption
    · exact List.mem_cons_self _ _
  · rw [failing_run]
  · rw [failing_run]
    exact List.mem_singleton.mpr rfl

/-- C6 counterexample — `main_function` does not leave the process-wide RNG
state unchanged: a concrete run overwrites the global numpy RNG state `(7, 3)`
with the seeded-and-advanced state `(42, 1)`. -/
theorem c6_explicit_rng_counterexample :
    (mainFunction benignCaps oneChanRec onePeak fixedTmpParams startWorld).2.npState
      ≠ startWorld.npState := by
  rw [benign_run]
  decide

/-- C6 amended — `main_function` seeds the *global* numpy RNG with the
configured seed (line 82) and draws the basis from it (line 105), rather than
using an explicit generator object: after any run (every exit path) the global
numpy RNG state equals the seeded state advanced by
`num_chans * min(num_chans, nb_projections)` draws, independent of the
pre-call state — so the basis is reproducible per seed, but the ambient global
RNG state is overwritten, not preserved. -/
theorem c6_global_rng_amended (caps : Caps) (recording : Recording)
    (peaks : List Peak) (params : Params) (w : World) :
    (mainFunction caps recording peaks params w).2.npState
      = (params.random_seed,
          recording.num_channels * min recording.num_channels params.nb_projections) := rfl

/-- C7 — empty-template exclusion: in every successful run, the template set
handed to the duplicate-removal step is exactly the post-sparsity template set
with the empty-mask units removed, every template in it retains at least one
channel above the noise-relative threshold, and (under the duplicate-removal
contract) every unit id in the final unit id list belongs to one of those
non-empty templates. -/
theorem c7_empty_template_exclusion (caps : Caps) (recording : Recording)
    (peaks : List Peak) (params : Params) (w : World) (res : MainResult) (wOut : World)
    (hDedup : DedupContract caps)
    (hrun : mainFunction caps recording peaks params w = (.ok res, wOut)) :
    ∃ pl arr ts,
      ts = cleanTemplates (unitIdsOf (spikesFrom peaks pl)) arr
        (noiseChoice caps recording params).1 params.sparsity_threshold ∧
      caps.removeDuplicatesViaMatching ts pl
        (tmpFolderChoice caps params w.pyState).1 = .ok (res.labels, res.peak_labels) ∧
      (∀ t ∈ ts, t.mask.contains true = true) ∧
      (∀ u ∈ res.labels, ∃ t ∈ ts, t.uid = u) := by
  have hok : mainCompute caps recording peaks params
      (tmpFolderChoice caps params w.pyState).1 = .ok res := by
    rw [← mainFunction_fst, hrun]
  obtain ⟨feats, pl, arr, hfeats, hpl, harr, hded, hparams⟩ :=
    mainCompute_ok_inversion _ _ _ _ _ _ hok
  obtain ⟨hlen, hsub, hmem, hpres⟩ := hDedup _ _ _ _ _ hded
  refine ⟨pl, arr, _, rfl, hded, ?_, hsub⟩
  intro t ht
  simp only [cleanTemplates, removeEmptyTemplates] at ht
  exact (List.mem_filter.mp ht).2

/-- Witness for C7: on the concrete benign run, the merge input is the single
non-empty-mask template of unit 0 and the final unit list is `[0]`. -/
theorem c7_empty_template_exclusion_witness :
    (mainFunction benignCaps oneChanRec onePeak fixedTmpParams startWorld
      = (.ok ⟨[0], [0], { fixedTmpParams with noise_levels := some [1] }⟩,
          ⟨["/x"], (42, 1), 0⟩)) ∧
    (∃ pl arr ts,
      ts = cleanTemplates (unitIdsOf (spikesFrom onePeak pl)) arr
        (noiseChoice benignCaps oneChanRec fixedTmpParams).1
        fixedTmpParams.sparsity_threshold ∧
      benignCaps.removeDuplicatesViaMatching ts pl
        (tmpFolderChoice benignCaps fixedTmpParams startWorld.pyState).1
        = .ok ([0], [0]) ∧
      (∀ t ∈ ts, t.mask.contains true = true) ∧
      (∀ u ∈ ([0] : List Int), ∃ t ∈ ts, t.uid = u)) := by
  refine ⟨benign_run, ?_⟩
  exact c7_empty_template_exclusion benignCaps oneChanRec onePeak fixedTmpParams
    startWorld _ _ benignCaps_dedup_contract benign_run

/-- C8 — projection-count cap: the basis built by `main_function` always has
exactly `min(num_chans, nb_projections)` columns, each with `num_chans` rows;
construction is a total function — requesting more projections than channels
is handled by the cap, never by aborting. -/
theorem c8_projection_count_cap (gauss : Nat → Nat → ℝ)
    (seed num_chans nb_projections : Nat) :
    (buildProjections gauss seed num_chans nb_projections).length
      = min num_chans nb_projections ∧
    ∀ c ∈ buildProjections gauss seed num_chans nb_projections,
      c.length = num_chans := by
  simp only [buildProjections]
  by_cases h : 1 < num_chans
  · rw [if_pos h]
    refine ⟨by simp, ?_⟩
    intro c hc
    rcases List.mem_map.mp hc with ⟨c0, hc0, rfl⟩
    rcases List.mem_map.mp hc0 with ⟨j, _, rfl⟩
    rw [normalizeColumn_length, rawColumn_length]
  · rw [if_neg h]
    refine ⟨by simp, ?_⟩
    intro c hc
    rcases List.mem_map.mp hc with ⟨j, _, rfl⟩
    exact rawColumn_length gauss seed num_chans nb_projections j

/-- C9 — caller-visible mutation of `params`: when called with
`params["noise_levels"] = None`, any successful run of `main_function` leaves
the caller-supplied dictionary with `noise_levels` set to the noise levels
computed from the recording — no longer `None`. -/
theorem c9_params_noise_mutation (caps : Caps) (recording : Recording)
    (peaks : List Peak) (params : Params) (w : World) (res : MainResult) (wOut : World)
    (hnone : params.noise_levels = none)
    (hrun : mainFunction caps recording peaks params w = (.ok res, wOut)) :
    res.params_out.noise_levels = some (caps.getNoiseLevels recording) ∧
    res.params_out.noise_levels ≠ none := by
  have hok : mainCompute caps recording peaks params
      (tmpFolderChoice caps params w.pyState).1 = .ok res := by
    rw [← mainFunction_fst, hrun]
  obtain ⟨feats, pl, arr, hfeats, hpl, harr, hded, hparams⟩ :=
    mainCompute_ok_inversion _ _ _ _ _ _ hok
  rw [hparams]
  simp [noiseChoice, hnone]

/-- Witness for C9: the concrete benign run starts with `noise_levels = None`
and ends with it set to the computed `[1]`. -/
theorem c9_params_noise_mutation_witness :
    fixedTmpParams.noise_levels = none ∧
    (mainFunction benignCaps oneChanRec onePeak fixedTmpParams startWorld
      = (.ok ⟨[0], [0], { fixedTmpParams with noise_levels := some [1] }⟩,
          ⟨["/x"], (42, 1), 0⟩)) ∧
    ((MainResult.mk [0] [0]
        { fixedTmpParams with noise_levels := some [1] }).params_out.noise_levels
      = some (benignCaps.getNoiseLevels oneChanRec) ∧
     (MainResult.mk [0] [0]
        { fixedTmpParams with noise_levels := some [1] }).params_out.noise_levels
      ≠ none) := by
  refine ⟨rfl, benign_run, ?_⟩
  exact c9_params_noise_mutation benignCaps oneChanRec onePeak fixedTmpParams
    startWorld _ _ rfl benign_run

/-- C10 — `BasePreprocessorSegment` is unconstructible: whenever the base
class `BaseRecordingSegment` has no attribute named `__inti__` (the misspelling
of `__init__` at line 21 of `basepreprocessor.py`), every instantiation raises
`AttributeError`; and `get_traces` itself unconditionally raises
`NotImplementedError`. -/
theorem c10_segment_unconstructible (attrs : List String)
    (h : "__inti__" ∉ attrs) :
    instantiateBasePreprocessorSegment attrs = .error .attributeError ∧
    ∀ s e chans, basePreprocessorSegmentGetTraces s e chans
      = .error .notImplementedError := by
  refine ⟨?_, fun s e chans => rfl⟩
  simp [instantiateBasePreprocessorSegment, h]

/-- Witness for C10: the modelled attribute table of `BaseRecordingSegment`
has no `__inti__`, so instantiation raises `AttributeError`. -/
theorem c10_segment_unconstructible_witness :
    ("__inti__" ∉ baseRecordingSegmentAttrs) ∧
    (instantiateBasePreprocessorSegment baseRecordingSegmentAttrs
        = .error .attributeError ∧
     ∀ s e chans, basePreprocessorSegmentGetTraces s e chans
        = .error .notImplementedError) :=
  ⟨by decide, c10_segment_unconstructible baseRecordingSegmentAttrs (by decide)⟩
